import Mathlib

/-!
Shallow embedding of `kvmd/apps/kvmd/auth.py` (`AuthManager` and `_Session`).

External effects are made explicit parameters:
* the TOTP secret file content (`open(totp_secret_path).read()`) is passed as
  a `String` argument, since the source reads it freshly on every `authorize`;
* `pyotp.TOTP(secret).verify(code, valid_window=1)` is an oracle
  `String → String → Nat → Bool` taking secret, code and the window argument;
* each auth service's `authorize(user, passwd)` is a pure oracle
  `String → String → Bool`;
* `secrets.token_hex(32)` is a stream `Nat → String` of generated tokens;
* `time.monotonic()` (truncated to `int`) is passed as `now : Int`;
* each backend's `cleanup()` outcome is an `Except String Unit` argument.

Python `assert` failures are modelled as `Except.error`; normal results as
`Except.ok`. The session dict is an association list with unique keys.
-/

/-- Result type of a backend auth service's `authorize` call: user, password to
accept/deny. Models `BaseAuthService.authorize`. -/
abbrev Verifier := String → String → Bool

/-- Oracle for `pyotp.TOTP(secret).verify(code, valid_window=w)`:
arguments are secret, code, window. -/
abbrev TotpVerifier := String → String → Nat → Bool

deriving instance DecidableEq for Except

/-- Python `s.strip()`: drop leading and trailing whitespace. Defined by
structural recursion over the character list so that it evaluates inside
`decide` and `rfl` proofs. -/
def pyStrip (s : String) : String :=
  String.mk
    (((s.toList.dropWhile Char.isWhitespace).reverse.dropWhile
      Char.isWhitespace).reverse)

/-- Python slice `s[-n:]`: the last `n` characters (the whole string when
`s` is shorter than `n`). -/
def pySuffix (s : String) (n : Nat) : String :=
  String.mk (s.toList.drop (s.toList.length - n))

/-- Python slice `s[:-n]`: everything but the last `n` characters (empty when
`s` has at most `n` characters). -/
def pyDropSuffix (s : String) (n : Nat) : String :=
  String.mk (s.toList.take (s.toList.length - n))

/-- Embeds the frozen dataclass `_Session`: `user` and `expire_ts`. -/
structure Session where
  user : String
  expire_ts : Int
deriving Repr, DecidableEq

/-- Invariants asserted by `_Session.__post_init__`. -/
def Session.valid (s : Session) : Prop :=
  pyStrip s.user ≠ "" ∧ s.user ≠ "" ∧ 0 ≤ s.expire_ts

/-- Python dict lookup `d.get(k)` / `k in d`: first binding for the key. -/
def dictGet (d : List (String × Session)) (k : String) : Option Session :=
  match d with
  | [] => none
  | (a, b) :: t => if a = k then some b else dictGet t k

/-- Python dict assignment `d[k] = v`: replaces the value when the key is
present, otherwise appends the new binding at the end. -/
def dictInsert (d : List (String × Session)) (k : String) (v : Session) :
    List (String × Session) :=
  if (dictGet d k).isNone then d ++ [(k, v)]
  else d.map fun kv => if kv.1 = k then (k, v) else kv

/-- Python `del d[k]`: drops the binding for `k`. -/
def dictErase (d : List (String × Session)) (k : String) :
    List (String × Session) :=
  d.filter fun kv => kv.1 != k

/-- Embeds the relevant fields of `htserver.HttpExposed` as used by
`AuthManager.is_auth_required`: the endpoint path and its declared
`auth_required` flag. -/
structure HttpExposed where
  path : String
  auth_required : Bool
deriving Repr, DecidableEq

/-- State of `AuthManager`. The auth services are stored as their `authorize`
oracles; `none` models a service that was not instantiated. -/
structure AuthManager where
  enabled : Bool
  unauth_paths : List String
  internal_service : Option Verifier
  force_internal_users : List String
  external_service : Option Verifier
  totp_secret_path : String
  sessions : List (String × Session)

/-- Embeds `AuthManager.__init__`: the internal service is instantiated only
when `enabled`; the external one only when `enabled` and `external_type` is a
non-empty string (Python truthiness of `external_type`). -/
def AuthManager.init (enabled : Bool) (unauth_paths : List String)
    (internal : Verifier) (force_internal_users : List String)
    (external_type : String) (external : Verifier)
    (totp_secret_path : String) : AuthManager :=
  { enabled := enabled
    unauth_paths := unauth_paths
    internal_service := if enabled then some internal else none
    force_internal_users := force_internal_users
    external_service :=
      if enabled && external_type != "" then some external else none
    totp_secret_path := totp_secret_path
    sessions := [] }

/-- Embeds `AuthManager.is_auth_enabled`. -/
def AuthManager.is_auth_enabled (m : AuthManager) : Bool :=
  m.enabled

/-- Embeds `AuthManager.is_auth_required`. -/
def AuthManager.is_auth_required (m : AuthManager) (exposed : HttpExposed) :
    Bool :=
  m.is_auth_enabled && exposed.auth_required
    && !(m.unauth_paths.contains exposed.path)

/-- Embeds the TOTP block of `AuthManager.authorize` (the lines guarded by
`if self.__totp_secret_path:`): returns `none` when TOTP denies access and
`some passwd2` with the password to hand to the backend otherwise.
`fileContent` is what `open(totp_secret_path).read()` returned. -/
def totpGate (totp_secret_path : String) (tv : TotpVerifier)
    (fileContent passwd : String) : Option String :=
  if totp_secret_path ≠ "" then
    let secret := pyStrip fileContent
    if secret ≠ "" then
      let code := pySuffix passwd 6
      if tv secret code 1 then some (pyDropSuffix passwd 6) else none
    else some passwd
  else some passwd

/-- Embeds the backend-selection lines of `AuthManager.authorize`:
`if user not in self.__force_internal_users and self.__external_service:`. -/
def selectService (m : AuthManager) (internal : Verifier) (user : String) :
    Verifier :=
  match m.external_service with
  | some external =>
      if m.force_internal_users.contains user then internal else external
  | none => internal

/-- Embeds `AuthManager.authorize`. The four `assert` statements become
`Except.error`; the TOTP gate and backend selection follow the source order. -/
def AuthManager.authorize (m : AuthManager) (tv : TotpVerifier)
    (fileContent user passwd : String) : Except String Bool :=
  if user ≠ pyStrip user then .error "assert user == user.strip()"
  else if user = "" then .error "assert user"
  else if m.enabled = false then .error "assert self.__enabled"
  else
    match m.internal_service with
    | none => .error "assert self.__internal_service"
    | some internal =>
        match totpGate m.totp_secret_path tv fileContent passwd with
        | none => .ok false
        | some passwd2 => .ok (selectService m internal user user passwd2)

/-- Embeds `AuthManager.__make_new_token`'s loop body: `fuel` iterations
remain, `i` indexes the token stream `gen`. -/
def makeNewTokenAux (sessions : List (String × Session)) (gen : Nat → String) :
    Nat → Nat → Except String String
  | 0, _ => .error "Can not generate new unique token"
  | fuel + 1, i =>
      let token := gen i
      if (dictGet sessions token).isNone then .ok token
      else makeNewTokenAux sessions gen fuel (i + 1)

/-- Embeds `AuthManager.__make_new_token`: `for _ in range(10)`, then
`raise AssertionError`. -/
def make_new_token (sessions : List (String × Session)) (gen : Nat → String) :
    Except String String :=
  makeNewTokenAux sessions gen 10 0

/-- Embeds the `_Session(...)` constructed inside `AuthManager.login`:
`expire_ts = 0 if expire <= 0 else now + expire`. -/
def loginSession (user : String) (now expire : Int) : Session :=
  { user := user
    expire_ts := if expire ≤ 0 then 0 else now + expire }

/-- Embeds `AuthManager.login`. Returns the optional token and the new
manager state; `now` models `self.__get_now_ts()`. -/
def AuthManager.login (m : AuthManager) (tv : TotpVerifier)
    (fileContent : String) (gen : Nat → String) (now : Int)
    (user passwd : String) (expire : Int) :
    Except String (Option String × AuthManager) :=
  if user ≠ pyStrip user then .error "assert user == user.strip()"
  else if user = "" then .error "assert user"
  else if expire < 0 then .error "assert expire >= 0"
  else if m.enabled = false then .error "assert self.__enabled"
  else
    match m.authorize tv fileContent user passwd with
    | .error e => .error e
    | .ok true =>
        match make_new_token m.sessions gen with
        | .error e => .error e
        | .ok token =>
            let session : Session := loginSession user now expire
            .ok (some token,
              { m with sessions := dictInsert m.sessions token session })
    | .ok false => .ok (none, m)

/-- Embeds `AuthManager.logout`: on a known token, delete every session of
the same user; unknown tokens are a no-op. -/
def AuthManager.logout (m : AuthManager) (token : String) :
    Except String AuthManager :=
  if m.enabled = false then .error "assert self.__enabled"
  else
    match dictGet m.sessions token with
    | none => .ok m
    | some session =>
        .ok { m with
          sessions := m.sessions.filter fun kv => kv.2.user != session.user }

/-- Embeds `AuthManager.check`: lazy expiry against `now`
(`self.__get_now_ts()`); returns the optional user and the new state. -/
def AuthManager.check (m : AuthManager) (now : Int) (token : String) :
    Except String (Option String × AuthManager) :=
  if m.enabled = false then .error "assert self.__enabled"
  else
    match dictGet m.sessions token with
    | none => .ok (none, m)
    | some session =>
        if session.expire_ts ≤ 0 then
          if session.user = "" then .error "assert session.user"
          else .ok (some session.user, m)
        else
          if now < session.expire_ts then
            if session.user = "" then .error "assert session.user"
            else .ok (some session.user, m)
          else .ok (none, { m with sessions := dictErase m.sessions token })

/-- Embeds `AuthManager.cleanup`. `ir` and `er` are the outcomes of awaiting
`internal_service.cleanup()` and `external_service.cleanup()`. The result's
first component records which of the two cleanup calls were actually awaited
(internal, external); the second is the overall outcome, an uncaught backend
exception propagating as `Except.error`. -/
def AuthManager.cleanup (m : AuthManager) (ir er : Except String Unit) :
    (Bool × Bool) × Except String Unit :=
  if m.enabled then
    match m.internal_service with
    | none => ((false, false), .error "assert self.__internal_service")
    | some _ =>
        match ir with
        | .error e => ((true, false), .error e)
        | .ok _ =>
            match m.external_service with
            | some _ =>
                match er with
                | .error e => ((true, true), .error e)
                | .ok _ => ((true, true), .ok ())
            | none => ((true, false), .ok ())
  else ((false, false), .ok ())


/-! Helper lemmas about the session dictionary and the token generator. -/

/-- Looking up a key after erasing it yields nothing. -/
theorem dictGet_dictErase_self (d : List (String × Session)) (k : String) :
    dictGet (dictErase d k) k = none := by
  induction d with
  | nil => rfl
  | cons kv t ih =>
      obtain ⟨a, b⟩ := kv
      by_cases h : a = k
      · subst h
        simpa [dictErase, List.filter_cons] using ih
      · have hb : (a != k) = true := bne_iff_ne.mpr h
        simpa [dictErase, List.filter_cons, hb, dictGet, h] using ih

/-- Appending a fresh binding at the end makes it visible to lookup. -/
theorem dictGet_append_last (d : List (String × Session)) (k : String)
    (v : Session) (h : dictGet d k = none) :
    dictGet (d ++ [(k, v)]) k = some v := by
  induction d with
  | nil => simp [dictGet]
  | cons kv t ih =>
      obtain ⟨a, b⟩ := kv
      by_cases hk : a = k
      · simp [dictGet, hk] at h
      · simp only [List.cons_append, dictGet, hk, if_false, if_neg hk] at h ⊢
        exact ih h

/-- Inserting a fresh key makes it visible to lookup. -/
theorem dictGet_dictInsert_self (d : List (String × Session)) (k : String)
    (v : Session) (h : dictGet d k = none) :
    dictGet (dictInsert d k v) k = some v := by
  unfold dictInsert
  rw [if_pos (by simp [h])]
  exact dictGet_append_last d k v h

/-- Membership in the user-filtered table. -/
theorem mem_filter_user_iff (d : List (String × Session)) (u t2 : String)
    (s2 : Session) :
    ((t2, s2) ∈ d.filter fun kv => kv.2.user != u) ↔
      ((t2, s2) ∈ d ∧ s2.user ≠ u) := by
  simp [List.mem_filter]

/-- Tokens returned by the generation loop are absent from the table. -/
theorem makeNewTokenAux_ok_fresh (sessions : List (String × Session))
    (gen : Nat → String) :
    ∀ fuel i t, makeNewTokenAux sessions gen fuel i = .ok t →
      dictGet sessions t = none := by
  intro fuel
  induction fuel with
  | zero => intro i t h; simp [makeNewTokenAux] at h
  | succ n ih =>
      intro i t h
      simp only [makeNewTokenAux] at h
      by_cases hc : (dictGet sessions (gen i)).isNone
      · rw [if_pos hc] at h
        injection h with h2
        subst h2
        exact Option.isNone_iff_eq_none.mp hc
      · rw [if_neg hc] at h
        exact ih (i + 1) t h

/-- When every candidate in the window collides, the loop exhausts. -/
theorem makeNewTokenAux_exhaust (sessions : List (String × Session))
    (gen : Nat → String) :
    ∀ fuel i,
      (∀ j, i ≤ j → j < i + fuel →
        (dictGet sessions (gen j)).isNone = false) →
      makeNewTokenAux sessions gen fuel i =
        .error "Can not generate new unique token" := by
  intro fuel
  induction fuel with
  | zero => intro i _; rfl
  | succ n ih =>
      intro i h
      simp only [makeNewTokenAux]
      rw [if_neg (by simp [h i (Nat.le_refl i) (by omega)])]
      exact ih (i + 1) fun j hj1 hj2 => h j (by omega) (by omega)

/-- The loop only consults the token stream inside its window. -/
theorem makeNewTokenAux_congr (sessions : List (String × Session))
    (gen gen2 : Nat → String) :
    ∀ fuel i, (∀ j, i ≤ j → j < i + fuel → gen j = gen2 j) →
      makeNewTokenAux sessions gen fuel i =
        makeNewTokenAux sessions gen2 fuel i := by
  intro fuel
  induction fuel with
  | zero => intro i _; rfl
  | succ n ih =>
      intro i h
      simp only [makeNewTokenAux]
      rw [h i (Nat.le_refl i) (by omega)]
      by_cases hc : (dictGet sessions (gen2 i)).isNone
      · rw [if_pos hc, if_pos hc]
      · rw [if_neg hc, if_neg hc]
        exact ih (i + 1) fun j hj1 hj2 => h j (by omega) (by omega)

/-- Tokens returned by `make_new_token` are absent from the table. -/
theorem make_new_token_fresh (sessions : List (String × Session))
    (gen : Nat → String) (t : String)
    (h : make_new_token sessions gen = .ok t) :
    dictGet sessions t = none :=
  makeNewTokenAux_ok_fresh sessions gen 10 0 t h

/-! Concrete backends used to instantiate the theorems below. -/

/-- Sample internal verifier: accepts alice with password pw1. -/
def ivW : Verifier := fun u p => u == "alice" && p == "pw1"

/-- Sample external verifier: accepts bob with password pw2. -/
def evW : Verifier := fun u p => u == "bob" && p == "pw2"

/-- Sample TOTP oracle: the secret SECRET currently yields code 123456,
checked with window 1. -/
def tvW : TotpVerifier := fun s c w => s == "SECRET" && c == "123456" && w == 1

/-! Claim theorems. -/

/-- C8: `is_auth_required` returns exactly
`enabled AND exposed.auth_required AND exposed.path ∉ unauth_paths`,
and (being a pure function of the manager and its argument) has no side
effects on the authority state. -/
theorem is_auth_required_spec (m : AuthManager) (exposed : HttpExposed) :
    m.is_auth_required exposed = true ↔
      (m.enabled = true ∧ exposed.auth_required = true ∧
        exposed.path ∉ m.unauth_paths) := by
  simp [AuthManager.is_auth_required, AuthManager.is_auth_enabled, and_assoc]

/-- C9: with a disabled authority every session operation (`authorize`,
`login`, `check`, `logout`) aborts with an assertion error instead of
returning a normal result. -/
theorem disabled_ops_assert (m : AuthManager) (tv : TotpVerifier)
    (fc : String) (gen : Nat → String) (now : Int)
    (user passwd token : String) (expire : Int)
    (hdis : m.enabled = false) :
    (∃ e, m.authorize tv fc user passwd = .error e) ∧
    (∃ e, m.login tv fc gen now user passwd expire = .error e) ∧
    (∃ e, m.check now token = .error e) ∧
    (∃ e, m.logout token = .error e) := by
  refine ⟨?_, ?_, ?_, ?_⟩
  · unfold AuthManager.authorize
    split
    · exact ⟨_, rfl⟩
    · split
      · exact ⟨_, rfl⟩
      · exact ⟨_, rfl⟩
  · unfold AuthManager.login
    split
    · exact ⟨_, rfl⟩
    · split
      · exact ⟨_, rfl⟩
      · split
        · exact ⟨_, rfl⟩
        · exact ⟨_, rfl⟩
  · unfold AuthManager.check
    rw [if_pos hdis]
    exact ⟨_, rfl⟩
  · unfold AuthManager.logout
    rw [if_pos hdis]
    exact ⟨_, rfl⟩

/-- Witness for C9 at a concrete disabled manager and concrete arguments. -/
theorem disabled_ops_assert_witness :
    (∃ e, (AuthManager.init false [] ivW [] "ldap" evW "").authorize tvW
      "SECRET" "alice" "pw1" = .error e) ∧
    (∃ e, (AuthManager.init false [] ivW [] "ldap" evW "").login tvW
      "SECRET" (fun _ => "tok") 5 "alice" "pw1" 60 = .error e) ∧
    (∃ e, (AuthManager.init false [] ivW [] "ldap" evW "").check 5 "tok"
      = .error e) ∧
    (∃ e, (AuthManager.init false [] ivW [] "ldap" evW "").logout "tok"
      = .error e) :=
  disabled_ops_assert (AuthManager.init false [] ivW [] "ldap" evW "") tvW
    "SECRET" (fun _ => "tok") 5 "alice" "pw1" "tok" 60 rfl

/-- On a manager built by `AuthManager.init` with `enabled = true`, the
service selection reduces to the forced-internal/no-external condition. -/
theorem selectService_init (unp fiu : List String) (iv ev : Verifier)
    (et path user : String) :
    selectService (AuthManager.init true unp iv fiu et ev path) iv user
      = if fiu.contains user || et == "" then iv else ev := by
  unfold selectService AuthManager.init
  by_cases he : et = ""
  · subst he
    simp
  · have h1 : (et != "") = true := bne_iff_ne.mpr he
    have h2 : (et == "") = false := beq_eq_false_iff_ne.mpr he
    simp [h1, h2]

/-- On a manager built by `AuthManager.init` with `enabled = true` and a
stripped non-empty user, `authorize` reduces to the TOTP gate followed by the
selected backend. -/
theorem authorize_init_eq (unp fiu : List String) (iv ev : Verifier)
    (et path : String) (tv : TotpVerifier) (fc user passwd : String)
    (hu : pyStrip user = user) (hne : user ≠ "") :
    (AuthManager.init true unp iv fiu et ev path).authorize tv fc user passwd
      = match totpGate path tv fc passwd with
        | none => .ok false
        | some passwd2 =>
            .ok ((if fiu.contains user || et == "" then iv else ev)
              user passwd2) := by
  unfold AuthManager.authorize
  rw [if_neg (by simp [hu]), if_neg hne, if_neg (by simp [AuthManager.init])]
  have h1 : (AuthManager.init true unp iv fiu et ev path).internal_service
      = some iv := by simp [AuthManager.init]
  have h2 : (AuthManager.init true unp iv fiu et ev path).totp_secret_path
      = path := rfl
  rw [h1, h2]
  cases hg : totpGate path tv fc passwd with
  | none => rfl
  | some passwd2 =>
      show Except.ok
        (selectService (AuthManager.init true unp iv fiu et ev path) iv user
          user passwd2) = _
      rw [selectService_init]

/-- C1: with a configured non-empty TOTP secret, `authorize` splits the
password into core (`passwd[:-6]`) and code (`passwd[-6:]`), verifies the
code with window 1, returns false on TOTP failure with no dependence on any
backend (the backends `iv`, `ev` are universally quantified), and on success
hands the core password to the selected backend; with no configured secret
the full unmodified password goes to the selected backend. -/
theorem authorize_totp_spec (unp fiu : List String) (iv ev : Verifier)
    (et path : String) (tv : TotpVerifier) (fc user passwd : String)
    (hu : pyStrip user = user) (hne : user ≠ "") :
    (path ≠ "" → pyStrip fc ≠ "" →
      tv (pyStrip fc) (pySuffix passwd 6) 1 = false →
      (AuthManager.init true unp iv fiu et ev path).authorize tv fc user passwd
        = .ok false) ∧
    (path ≠ "" → pyStrip fc ≠ "" →
      tv (pyStrip fc) (pySuffix passwd 6) 1 = true →
      (AuthManager.init true unp iv fiu et ev path).authorize tv fc user passwd
        = .ok ((if fiu.contains user || et == "" then iv else ev) user
            (pyDropSuffix passwd 6))) ∧
    ((path = "" ∨ pyStrip fc = "") →
      (AuthManager.init true unp iv fiu et ev path).authorize tv fc user passwd
        = .ok ((if fiu.contains user || et == "" then iv else ev) user
            passwd)) := by
  refine ⟨?_, ?_, ?_⟩
  · intro hp hs hv
    rw [authorize_init_eq unp fiu iv ev et path tv fc user passwd hu hne]
    have hg : totpGate path tv fc passwd = none := by
      simp [totpGate, hp, hs, hv]
    rw [hg]
  · intro hp hs hv
    rw [authorize_init_eq unp fiu iv ev et path tv fc user passwd hu hne]
    have hg : totpGate path tv fc passwd = some (pyDropSuffix passwd 6) := by
      simp [totpGate, hp, hs, hv]
    rw [hg]
  · intro hcase
    rw [authorize_init_eq unp fiu iv ev et path tv fc user passwd hu hne]
    have hg : totpGate path tv fc passwd = some passwd := by
      rcases hcase with h | h
      · subst h
        simp [totpGate]
      · simp [totpGate, h]
    rw [hg]

/-- Witness for C1: TOTP denial, TOTP success with the core password reaching
the external backend, and the no-secret path with the full password. -/
theorem authorize_totp_spec_witness :
    ((AuthManager.init true [] ivW [] "ldap" evW "/etc/totp").authorize tvW
      " SECRET \n" "bob" "pw2999999" = .ok false) ∧
    ((AuthManager.init true [] ivW [] "ldap" evW "/etc/totp").authorize tvW
      " SECRET \n" "bob" "pw2123456" = .ok true) ∧
    ((AuthManager.init true [] ivW [] "ldap" evW "").authorize tvW
      "anything" "bob" "pw2" = .ok true) := by
  have h1 := authorize_totp_spec [] [] ivW evW "ldap" "/etc/totp" tvW
    " SECRET \n" "bob" "pw2999999" (by decide) (by decide)
  have h2 := authorize_totp_spec [] [] ivW evW "ldap" "/etc/totp" tvW
    " SECRET \n" "bob" "pw2123456" (by decide) (by decide)
  have h3 := authorize_totp_spec [] [] ivW evW "ldap" "" tvW
    "anything" "bob" "pw2" (by decide) (by decide)
  refine ⟨?_, ?_, ?_⟩
  · exact h1.1 (by decide) (by decide) (by decide)
  · rw [h2.2.1 (by decide) (by decide) (by decide)]
    decide
  · rw [h3.2.2 (Or.inl rfl)]
    decide

/-- C5: when the TOTP gate passes with resulting password `passwd2`,
`authorize` consults the internal backend exactly when the user is in the
forced-internal list or no external backend is configured, and the external
backend otherwise; in particular a forced-internal user is verified by the
internal backend even with an external backend configured. -/
theorem backend_selection_spec (unp fiu : List String) (iv ev : Verifier)
    (et path : String) (tv : TotpVerifier) (fc user passwd passwd2 : String)
    (hu : pyStrip user = user) (hne : user ≠ "")
    (hg : totpGate path tv fc passwd = some passwd2) :
    ((AuthManager.init true unp iv fiu et ev path).authorize tv fc user passwd
      = .ok ((if fiu.contains user || et == "" then iv else ev) user passwd2))
    ∧ (fiu.contains user = true →
      (AuthManager.init true unp iv fiu et ev path).authorize tv fc user passwd
        = .ok (iv user passwd2)) := by
  have h := authorize_init_eq unp fiu iv ev et path tv fc user passwd hu hne
  rw [hg] at h
  refine ⟨h, fun hf => ?_⟩
  rw [h, hf]
  simp

/-- Witness for C5: forced-internal alice is verified internally despite an
external backend being configured; non-forced bob goes to the external one. -/
theorem backend_selection_spec_witness :
    ((AuthManager.init true [] ivW ["alice"] "ldap" evW "").authorize tvW "x"
      "alice" "pw1" = .ok true) ∧
    ((AuthManager.init true [] ivW [] "ldap" evW "").authorize tvW "x"
      "bob" "pw2" = .ok true) := by
  have h1 := backend_selection_spec [] ["alice"] ivW evW "ldap" "" tvW "x"
    "alice" "pw1" "pw1" (by decide) (by decide) (by decide)
  have h2 := backend_selection_spec [] [] ivW evW "ldap" "" tvW "x"
    "bob" "pw2" "pw2" (by decide) (by decide) (by decide)
  constructor
  · rw [h1.2 (by decide)]
    decide
  · rw [h2.1]
    decide

/-- C10: a secret file whose content is only whitespace is stripped to the
empty string before the emptiness test, so `authorize` behaves exactly as if
no secret were configured: TOTP is skipped (for any TOTP oracle and any
other file content) and the full password reaches the selected backend. -/
theorem whitespace_secret_spec (unp fiu : List String) (iv ev : Verifier)
    (et path : String) (tv tv2 : TotpVerifier) (fc fc2 user passwd : String)
    (hu : pyStrip user = user) (hne : user ≠ "") (hws : pyStrip fc = "") :
    ((AuthManager.init true unp iv fiu et ev path).authorize tv fc user passwd
      = (AuthManager.init true unp iv fiu et ev "").authorize tv2 fc2 user
          passwd) ∧
    ((AuthManager.init true unp iv fiu et ev path).authorize tv fc user passwd
      = .ok ((if fiu.contains user || et == "" then iv else ev) user passwd))
    := by
  have hL := authorize_init_eq unp fiu iv ev et path tv fc user passwd hu hne
  have hR := authorize_init_eq unp fiu iv ev et "" tv2 fc2 user passwd hu hne
  have hgL : totpGate path tv fc passwd = some passwd := by
    by_cases hp : path = ""
    · subst hp
      simp [totpGate]
    · simp [totpGate, hp, hws]
  have hgR : totpGate "" tv2 fc2 passwd = some passwd := by simp [totpGate]
  rw [hgL] at hL
  rw [hgR] at hR
  exact ⟨hL.trans hR.symm, hL⟩

/-- Witness for C10: a whitespace-only secret file behaves like no secret and
the full password reaches the internal backend. -/
theorem whitespace_secret_spec_witness :
    ((AuthManager.init true [] ivW [] "" evW "/etc/totp").authorize tvW
      "   \n" "alice" "pw1"
      = (AuthManager.init true [] ivW [] "" evW "").authorize tvW "zzz"
          "alice" "pw1") ∧
    ((AuthManager.init true [] ivW [] "" evW "/etc/totp").authorize tvW
      "   \n" "alice" "pw1" = .ok true) := by
  have h := whitespace_secret_spec [] [] ivW evW "" "/etc/totp" tvW tvW
    "   \n" "zzz" "alice" "pw1" (by decide) (by decide) (by decide)
  exact ⟨h.1, by rw [h.2]; decide⟩

/-- On a missing token, `check` returns none and leaves the state intact. -/
theorem check_miss (m : AuthManager) (now : Int) (token : String)
    (hen : m.enabled = true) (h : dictGet m.sessions token = none) :
    m.check now token = .ok (none, m) := by
  unfold AuthManager.check
  rw [if_neg (by simp [hen]), h]

/-- C2: `check(token)` returns none and leaves the table unchanged on an
unknown token; returns the user without modification when `expire_ts = 0` or
`now < expire_ts`; otherwise evicts exactly that token's entry and returns
none, and a second `check` of the same token still returns none against the
evicted table (idempotent eviction). -/
theorem check_spec (m : AuthManager) (now : Int) (token : String)
    (hen : m.enabled = true) :
    (dictGet m.sessions token = none → m.check now token = .ok (none, m)) ∧
    (∀ s, dictGet m.sessions token = some s → s.user ≠ "" →
      (s.expire_ts = 0 → m.check now token = .ok (some s.user, m)) ∧
      (0 < s.expire_ts → now < s.expire_ts →
        m.check now token = .ok (some s.user, m)) ∧
      (0 < s.expire_ts → s.expire_ts ≤ now →
        (m.check now token =
          .ok (none, { m with sessions := dictErase m.sessions token })) ∧
        ({ m with sessions := dictErase m.sessions token }).check now token
          = .ok (none,
            { m with sessions := dictErase m.sessions token }))) := by
  refine ⟨check_miss m now token hen, ?_⟩
  intro s hs hu
  refine ⟨?_, ?_, ?_⟩
  · intro h0
    simp [AuthManager.check, hen, hs, h0, hu]
  · intro hpos hlt
    have h1 : ¬ s.expire_ts ≤ 0 := by omega
    simp [AuthManager.check, hen, hs, h1, hlt, hu]
  · intro hpos hge
    constructor
    · have h1 : ¬ s.expire_ts ≤ 0 := by omega
      have h2 : ¬ now < s.expire_ts := by omega
      simp [AuthManager.check, hen, hs, h1, h2]
    · exact check_miss { m with sessions := dictErase m.sessions token } now
        token hen (dictGet_dictErase_self m.sessions token)

/-- Witness for C2 on a concrete two-session table at concrete times. -/
theorem check_spec_witness :
    (({ AuthManager.init true [] ivW [] "" evW "" with
        sessions := [("t1", { user := "alice", expire_ts := 100 }),
          ("t2", { user := "bob", expire_ts := 0 })] } : AuthManager).check
      50 "zz" = .ok (none,
        { AuthManager.init true [] ivW [] "" evW "" with
          sessions := [("t1", { user := "alice", expire_ts := 100 }),
            ("t2", { user := "bob", expire_ts := 0 })] })) ∧
    (({ AuthManager.init true [] ivW [] "" evW "" with
        sessions := [("t1", { user := "alice", expire_ts := 100 }),
          ("t2", { user := "bob", expire_ts := 0 })] } : AuthManager).check
      50 "t2" = .ok (some "bob",
        { AuthManager.init true [] ivW [] "" evW "" with
          sessions := [("t1", { user := "alice", expire_ts := 100 }),
            ("t2", { user := "bob", expire_ts := 0 })] })) ∧
    (({ AuthManager.init true [] ivW [] "" evW "" with
        sessions := [("t1", { user := "alice", expire_ts := 100 }),
          ("t2", { user := "bob", expire_ts := 0 })] } : AuthManager).check
      50 "t1" = .ok (some "alice",
        { AuthManager.init true [] ivW [] "" evW "" with
          sessions := [("t1", { user := "alice", expire_ts := 100 }),
            ("t2", { user := "bob", expire_ts := 0 })] })) ∧
    (({ AuthManager.init true [] ivW [] "" evW "" with
        sessions := [("t1", { user := "alice", expire_ts := 100 }),
          ("t2", { user := "bob", expire_ts := 0 })] } : AuthManager).check
      150 "t1" = .ok (none,
        { AuthManager.init true [] ivW [] "" evW "" with
          sessions := dictErase [("t1", { user := "alice", expire_ts := 100 }),
            ("t2", { user := "bob", expire_ts := 0 })] "t1" })) ∧
    (({ AuthManager.init true [] ivW [] "" evW "" with
        sessions := dictErase [("t1", { user := "alice", expire_ts := 100 }),
          ("t2", { user := "bob", expire_ts := 0 })] "t1" } :
        AuthManager).check 150 "t1" = .ok (none,
        { AuthManager.init true [] ivW [] "" evW "" with
          sessions := dictErase [("t1", { user := "alice", expire_ts := 100 }),
            ("t2", { user := "bob", expire_ts := 0 })] "t1" })) := by
  have h1 := check_spec
    { AuthManager.init true [] ivW [] "" evW "" with
      sessions := [("t1", { user := "alice", expire_ts := 100 }),
        ("t2", { user := "bob", expire_ts := 0 })] } 50 "zz" rfl
  have h2 := check_spec
    { AuthManager.init true [] ivW [] "" evW "" with
      sessions := [("t1", { user := "alice", expire_ts := 100 }),
        ("t2", { user := "bob", expire_ts := 0 })] } 50 "t2" rfl
  have h3 := check_spec
    { AuthManager.init true [] ivW [] "" evW "" with
      sessions := [("t1", { user := "alice", expire_ts := 100 }),
        ("t2", { user := "bob", expire_ts := 0 })] } 50 "t1" rfl
  have h4 := check_spec
    { AuthManager.init true [] ivW [] "" evW "" with
      sessions := [("t1", { user := "alice", expire_ts := 100 }),
        ("t2", { user := "bob", expire_ts := 0 })] } 150 "t1" rfl
  refine ⟨h1.1 rfl, ?_, ?_, ?_, ?_⟩
  · exact (h2.2 { user := "bob", expire_ts := 0 } rfl (by decide)).1 rfl
  · exact (h3.2 { user := "alice", expire_ts := 100 } rfl (by decide)).2.1
      (by decide) (by decide)
  · exact ((h4.2 { user := "alice", expire_ts := 100 } rfl (by decide)).2.2
      (by decide) (by decide)).1
  · exact ((h4.2 { user := "alice", expire_ts := 100 } rfl (by decide)).2.2
      (by decide) (by decide)).2

/-- C3: `logout(token)` on an unknown token is an error-free no-op; on a
known token it removes exactly the entries whose session user equals the
token's user (all of them, not only the presented token) and keeps every
entry of any other user. -/
theorem logout_spec (m : AuthManager) (token : String)
    (hen : m.enabled = true) :
    (dictGet m.sessions token = none → m.logout token = .ok m) ∧
    (∀ s, dictGet m.sessions token = some s →
      (m.logout token = .ok { m with
        sessions := m.sessions.filter fun kv => kv.2.user != s.user }) ∧
      ∀ t2 s2,
        ((t2, s2) ∈ m.sessions.filter fun kv => kv.2.user != s.user) ↔
          ((t2, s2) ∈ m.sessions ∧ s2.user ≠ s.user)) := by
  constructor
  · intro h
    unfold AuthManager.logout
    rw [if_neg (by simp [hen]), h]
  · intro s hs
    refine ⟨?_, fun t2 s2 => mem_filter_user_iff m.sessions s.user t2 s2⟩
    unfold AuthManager.logout
    rw [if_neg (by simp [hen]), hs]

/-- Witness for C3: logging out alice's token t1 also removes her second
session t3 while bob's t2 survives; an unknown token is a no-op. -/
theorem logout_spec_witness :
    (({ AuthManager.init true [] ivW [] "" evW "" with
        sessions := [("t1", { user := "alice", expire_ts := 0 }),
          ("t2", { user := "bob", expire_ts := 0 }),
          ("t3", { user := "alice", expire_ts := 50 })] } :
        AuthManager).logout "zz" = .ok
      { AuthManager.init true [] ivW [] "" evW "" with
        sessions := [("t1", { user := "alice", expire_ts := 0 }),
          ("t2", { user := "bob", expire_ts := 0 }),
          ("t3", { user := "alice", expire_ts := 50 })] }) ∧
    (({ AuthManager.init true [] ivW [] "" evW "" with
        sessions := [("t1", { user := "alice", expire_ts := 0 }),
          ("t2", { user := "bob", expire_ts := 0 }),
          ("t3", { user := "alice", expire_ts := 50 })] } :
        AuthManager).logout "t1" = .ok
      { AuthManager.init true [] ivW [] "" evW "" with
        sessions := [("t1", { user := "alice", expire_ts := 0 }),
          ("t2", { user := "bob", expire_ts := 0 }),
          ("t3", { user := "alice", expire_ts := 50 })].filter
            fun kv => kv.2.user != "alice" }) ∧
    ((("t2", ({ user := "bob", expire_ts := 0 } : Session)) ∈
        [("t1", ({ user := "alice", expire_ts := 0 } : Session)),
          ("t2", { user := "bob", expire_ts := 0 }),
          ("t3", { user := "alice", expire_ts := 50 })].filter
            fun kv => kv.2.user != "alice") ↔
      ((("t2", ({ user := "bob", expire_ts := 0 } : Session)) ∈
        [("t1", ({ user := "alice", expire_ts := 0 } : Session)),
          ("t2", { user := "bob", expire_ts := 0 }),
          ("t3", { user := "alice", expire_ts := 50 })]) ∧
        ("bob" : String) ≠ "alice")) := by
  have h1 := logout_spec
    { AuthManager.init true [] ivW [] "" evW "" with
      sessions := [("t1", { user := "alice", expire_ts := 0 }),
        ("t2", { user := "bob", expire_ts := 0 }),
        ("t3", { user := "alice", expire_ts := 50 })] } "zz" rfl
  have h2 := logout_spec
    { AuthManager.init true [] ivW [] "" evW "" with
      sessions := [("t1", { user := "alice", expire_ts := 0 }),
        ("t2", { user := "bob", expire_ts := 0 }),
        ("t3", { user := "alice", expire_ts := 50 })] } "t1" rfl
  refine ⟨h1.1 rfl, (h2.2 { user := "alice", expire_ts := 0 } rfl).1, ?_⟩
  exact (h2.2 { user := "alice", expire_ts := 0 } rfl).2 "t2"
    { user := "bob", expire_ts := 0 }


/-- C4: with `expire ≥ 0` and a passing `authorize`, `login` inserts a fresh
session whose `expire_ts` is 0 when `expire ≤ 0` and `now + expire`
otherwise, returns the fresh token, and `check` of that token immediately
afterwards yields the user; with a failing `authorize`, `login` returns none
and the table is unchanged. -/
theorem login_spec (m : AuthManager) (tv : TotpVerifier) (fc : String)
    (gen : Nat → String) (now : Int) (user passwd : String) (expire : Int)
    (hu : pyStrip user = user) (hne : user ≠ "") (hexp : 0 ≤ expire)
    (hen : m.enabled = true) :
    (m.authorize tv fc user passwd = .ok false →
      m.login tv fc gen now user passwd expire = .ok (none, m)) ∧
    (∀ t, m.authorize tv fc user passwd = .ok true →
      make_new_token m.sessions gen = .ok t →
      (loginSession user now expire).expire_ts
        = (if expire ≤ 0 then 0 else now + expire) ∧
      (m.login tv fc gen now user passwd expire =
        .ok (some t,
          { m with
            sessions := dictInsert m.sessions t
              (loginSession user now expire) })) ∧
      ({ m with
          sessions := dictInsert m.sessions t
            (loginSession user now expire) }).check now t
        = .ok (some user,
          { m with
            sessions := dictInsert m.sessions t
              (loginSession user now expire) })) := by
  constructor
  · intro ha
    unfold AuthManager.login
    rw [if_neg (by simp [hu]), if_neg hne, if_neg (by omega),
      if_neg (by simp [hen]), ha]
  · intro t ha hmk
    refine ⟨rfl, ?_, ?_⟩
    · unfold AuthManager.login
      rw [if_neg (by simp [hu]), if_neg hne, if_neg (by omega),
        if_neg (by simp [hen]), ha, hmk]
    · have hfresh := make_new_token_fresh m.sessions gen t hmk
      have hget : dictGet (dictInsert m.sessions t
            (loginSession user now expire)) t
          = some (loginSession user now expire) :=
        dictGet_dictInsert_self m.sessions t _ hfresh
      have huser : (loginSession user now expire).user = user := rfl
      by_cases he : expire ≤ 0
      · have hts : (loginSession user now expire).expire_ts ≤ 0 := by
          simp [loginSession, he]
        simp [AuthManager.check, hen, hget, hts, huser, hne]
      · by_cases hno : now + expire ≤ 0
        · have hts : (loginSession user now expire).expire_ts ≤ 0 := by
            simpa [loginSession, he] using hno
          simp [AuthManager.check, hen, hget, hts, huser, hne]
        · have hts : ¬ (loginSession user now expire).expire_ts ≤ 0 := by
            simpa [loginSession, he] using hno
          have hlt : now < (loginSession user now expire).expire_ts := by
            have : now < now + expire := by omega
            simpa [loginSession, he] using this
          simp [AuthManager.check, hen, hget, hts, hlt, huser, hne]

/-- Witness for C4: a failing password leaves the table unchanged; a passing
login inserts the session with `expire_ts = 100 + 60 = 160` and an immediate
check returns the user. -/
theorem login_spec_witness :
    ((AuthManager.init true [] ivW [] "" evW "").login tvW "x"
      (fun _ => "tok") 100 "alice" "bad" 60
      = .ok (none, AuthManager.init true [] ivW [] "" evW "")) ∧
    ((AuthManager.init true [] ivW [] "" evW "").login tvW "x"
      (fun _ => "tok") 100 "alice" "pw1" 60
      = .ok (some "tok",
        { AuthManager.init true [] ivW [] "" evW "" with
          sessions := [("tok", { user := "alice", expire_ts := 160 })] })) ∧
    (({ AuthManager.init true [] ivW [] "" evW "" with
        sessions := [("tok", { user := "alice", expire_ts := 160 })] } :
        AuthManager).check 100 "tok"
      = .ok (some "alice",
        { AuthManager.init true [] ivW [] "" evW "" with
          sessions :=
            [("tok", { user := "alice", expire_ts := 160 })] })) := by
  have h1 := login_spec (AuthManager.init true [] ivW [] "" evW "") tvW "x"
    (fun _ => "tok") 100 "alice" "bad" 60 (by decide) (by decide) (by decide)
    rfl
  have h2 := login_spec (AuthManager.init true [] ivW [] "" evW "") tvW "x"
    (fun _ => "tok") 100 "alice" "pw1" 60 (by decide) (by decide) (by decide)
    rfl
  obtain ⟨hts, hl, hc⟩ := h2.2 "tok" (by decide) (by decide)
  exact ⟨h1.1 (by decide), hl, hc⟩

/-- C7: every token returned by `make_new_token` is absent from the session
table at the moment of generation; only the first 10 candidates of the
random stream are ever consulted (at most 10 retries); and when all 10
candidates collide with existing keys the generator aborts with the fatal
error instead of returning a token. -/
theorem make_new_token_spec (sessions : List (String × Session))
    (gen gen2 : Nat → String) :
    (∀ t, make_new_token sessions gen = .ok t → dictGet sessions t = none) ∧
    ((∀ i, i < 10 → (dictGet sessions (gen i)).isNone = false) →
      make_new_token sessions gen =
        .error "Can not generate new unique token") ∧
    ((∀ i, i < 10 → gen i = gen2 i) →
      make_new_token sessions gen = make_new_token sessions gen2) := by
  refine ⟨fun t h => make_new_token_fresh sessions gen t h, ?_, ?_⟩
  · intro h
    exact makeNewTokenAux_exhaust sessions gen 10 0 fun j hj1 hj2 =>
      h j (by omega)
  · intro h
    exact makeNewTokenAux_congr sessions gen gen2 10 0 fun j hj1 hj2 =>
      h j (by omega)

/-- Witness for C7: a fresh token misses the table; a constantly colliding
stream exhausts the 10 retries; two streams agreeing below index 10 produce
the same result. -/
theorem make_new_token_spec_witness :
    (dictGet [("a", { user := "u", expire_ts := 0 })] "b" = none) ∧
    (make_new_token [("a", { user := "u", expire_ts := 0 })] (fun _ => "a")
      = .error "Can not generate new unique token") ∧
    (make_new_token [] (fun i => if i < 20 then "x" else "y")
      = make_new_token [] (fun _ => "x")) := by
  have h1 := make_new_token_spec [("a", { user := "u", expire_ts := 0 })]
    (fun _ => "b") (fun _ => "b")
  have h2 := make_new_token_spec [("a", { user := "u", expire_ts := 0 })]
    (fun _ => "a") (fun _ => "a")
  have h3 := make_new_token_spec ([] : List (String × Session))
    (fun i => if i < 20 then "x" else "y") (fun _ => "x")
  exact ⟨h1.1 "b" (by decide), h2.2.1 (by decide), h3.2.2 (by decide)⟩

/-- C6 counterexample: on an enabled manager with an external backend
configured, a failing internal cleanup makes `cleanup` skip the external
backend's cleanup entirely — the attempted pair is `(true, false)` although
the external service exists — contradicting the claim that neither cleanup
call is skipped because the other failed. -/
theorem cleanup_skips_external_counterexample :
    ((AuthManager.init true [] ivW [] "ldap" evW "").external_service.isSome
      = true) ∧
    (((AuthManager.init true [] ivW [] "ldap" evW "").cleanup
      (.error "internal cleanup failed") (.ok ())).fst = (true, false)) :=
  ⟨rfl, rfl⟩

/-- C6 amended: when disabled, `cleanup` attempts nothing; when enabled it
always attempts the internal backend's cleanup, and the external backend's
cleanup (when configured) is attempted only if the internal cleanup
succeeded — an internal cleanup failure propagates and skips the external
cleanup. -/
theorem cleanup_spec (m : AuthManager) (ir er : Except String Unit)
    (hint : m.enabled = true → m.internal_service.isSome = true) :
    (m.enabled = false → m.cleanup ir er = ((false, false), .ok ())) ∧
    (m.enabled = true → (m.cleanup ir er).fst.fst = true) ∧
    (m.enabled = true → ∀ e, ir = .error e →
      m.cleanup ir er = ((true, false), .error e)) ∧
    (m.enabled = true → ir = .ok () → m.external_service.isSome = true →
      (m.cleanup ir er).fst = (true, true)) ∧
    (m.enabled = true → ir = .ok () → m.external_service = none →
      m.cleanup ir er = ((true, false), .ok ())) := by
  refine ⟨?_, ?_, ?_, ?_, ?_⟩
  · intro hd
    unfold AuthManager.cleanup
    rw [hd]
    rfl
  · intro hen
    have hi := hint hen
    unfold AuthManager.cleanup
    rw [hen, if_pos rfl]
    cases his : m.internal_service with
    | none => rw [his] at hi; simp at hi
    | some iv =>
        cases ir with
        | error e => rfl
        | ok u =>
            cases u
            cases hes : m.external_service with
            | none => rfl
            | some ev2 => cases er <;> rfl
  · intro hen e hire
    have hi := hint hen
    unfold AuthManager.cleanup
    rw [hen, if_pos rfl, hire]
    cases his : m.internal_service with
    | none => rw [his] at hi; simp at hi
    | some iv => rfl
  · intro hen hirok hes
    have hi := hint hen
    unfold AuthManager.cleanup
    rw [hen, if_pos rfl, hirok]
    cases his : m.internal_service with
    | none => rw [his] at hi; simp at hi
    | some iv =>
        cases hes2 : m.external_service with
        | none => rw [hes2] at hes; simp at hes
        | some ev2 => cases er <;> rfl
  · intro hen hirok hes
    have hi := hint hen
    unfold AuthManager.cleanup
    rw [hen, if_pos rfl, hirok, hes]
    cases his : m.internal_service with
    | none => rw [his] at hi; simp at hi
    | some iv => rfl

/-- Witness for the amended C6 at concrete managers and cleanup outcomes. -/
theorem cleanup_spec_witness :
    ((AuthManager.init false [] ivW [] "" evW "").cleanup (.ok ()) (.ok ())
      = ((false, false), .ok ())) ∧
    ((AuthManager.init true [] ivW [] "ldap" evW "").cleanup
      (.error "ifail") (.ok ()) = ((true, false), .error "ifail")) ∧
    (((AuthManager.init true [] ivW [] "ldap" evW "").cleanup (.ok ())
      (.ok ())).fst = (true, true)) ∧
    ((AuthManager.init true [] ivW [] "" evW "").cleanup (.ok ()) (.ok ())
      = ((true, false), .ok ())) := by
  have h1 := cleanup_spec (AuthManager.init false [] ivW [] "" evW "")
    (.ok ()) (.ok ()) (fun h => absurd h (by decide))
  have h2 := cleanup_spec (AuthManager.init true [] ivW [] "ldap" evW "")
    (.error "ifail") (.ok ()) (fun _ => rfl)
  have h3 := cleanup_spec (AuthManager.init true [] ivW [] "ldap" evW "")
    (.ok ()) (.ok ()) (fun _ => rfl)
  have h4 := cleanup_spec (AuthManager.init true [] ivW [] "" evW "")
    (.ok ()) (.ok ()) (fun _ => rfl)
  exact ⟨h1.1 rfl, h2.2.2.1 rfl "ifail" rfl, h3.2.2.2.1 rfl rfl rfl,
    h4.2.2.2.2 rfl rfl rfl⟩
